import Mathlib

/-!
# Banking management system: ledger, account store and account creation

A shallow embedding of `BankingManagementSystem1Updated.cpp`.

Modelling conventions
* `double` is IEEE 754 binary64 (`Double`): finite values with their sign,
  both infinities and NaN. `+=`, `-=` and `>` are the binary64 operations under
  the default rounding (to nearest, ties to even), as on SSE2. NaN payloads are
  not distinguished.
* `int accountNumber` is an `Int`; no arithmetic is performed on it.
* `cout` is a list of inserted items (`Out`), one item per `<<` operand, so the
  rendering of a `double` under `fixed << setprecision(2)` is not fixed here.
* The `accounts` table reached through `sql::Connection*` is a list of rows in
  insertion order. The connection is healthy: no `sql::SQLException` is raised.
* `lock_guard<mutex>` serialises the bodies of `deposit` and `withdraw`; each
  call is therefore one atomic state transformer.
* `cin` input is taken as already parsed values.
-/

set_option maxRecDepth 100000
set_option exponentiation.threshold 4000

namespace Banking

/-! ## Binary64 arithmetic -/

/-- A value of type `double`. `finite neg mag` is the number
`(-1)^neg * mag * 2^(-1074)`: every finite binary64 number is a whole multiple
of the smallest subnormal `2^(-1074)`, so `mag` counts these units. A `mag` is
the magnitude of a binary64 number iff it satisfies `Double.Representable`. -/
inductive Double where
  | finite (neg : Bool) (mag : Nat)
  | inf (neg : Bool)
  | nan
  deriving DecidableEq, Repr

namespace Double

/-- The value `+0.0`. -/
def zero : Double :=
  finite false 0

/-- Number of binary digits of `n`, computed with `fuel` halvings at most. -/
def bitLengthAux : Nat → Nat → Nat
  | 0, _ => 0
  | fuel + 1, n => if n = 0 then 0 else bitLengthAux fuel (n / 2) + 1

/-- Number of binary digits of `n` (`0` for `0`). -/
def bitLength (n : Nat) : Nat :=
  bitLengthAux n n

/-- A magnitude, in units of `2^(-1074)`, that a finite binary64 number can have:
below `2^53` units every whole number is one (subnormals and the first binade);
above, the number must have at most 53 significant bits and stay below
`2^1024`, that is `2^2098` units. -/
def Representable (n : Nat) : Prop :=
  n < 2 ^ 53 ∨ (2 ^ (bitLength n - 53) ∣ n ∧ n < 2 ^ 2098)

instance Representable.instDecidable (n : Nat) : Decidable (Representable n) :=
  inferInstanceAs (Decidable (n < 2 ^ 53 ∨ (2 ^ (bitLength n - 53) ∣ n ∧ n < 2 ^ 2098)))

/-- Rounding of the exact magnitude `n` (in units of `2^(-1074)`) to binary64, to
nearest with ties to even; a result of `2^1024` or more overflows to infinity. -/
def round (neg : Bool) (n : Nat) : Double :=
  if n < 2 ^ 53 then
    finite neg n
  else
    let s := bitLength n - 53
    let q := n / 2 ^ s
    let r := n % 2 ^ s
    let half := 2 ^ (s - 1)
    let q1 := if half < r ∨ (r = half ∧ q % 2 = 1) then q + 1 else q
    let m := q1 * 2 ^ s
    if m < 2 ^ 2098 then finite neg m else inf neg

/-- The exact value of a finite number in units of `2^(-1074)`; `0` otherwise. -/
def units : Double → Int
  | finite neg mag => if neg then -(mag : Int) else (mag : Int)
  | _ => 0

/-- Whether the value is neither an infinity nor NaN. -/
def isFinite : Double → Bool
  | finite _ _ => true
  | _ => false

/-- Binary64 addition. An exact sum of zero is `-0.0` only when both operands are
negative zeros. -/
def add : Double → Double → Double
  | nan, _ => nan
  | _, nan => nan
  | inf s, inf t => if s = t then inf s else nan
  | inf s, finite _ _ => inf s
  | finite _ _, inf t => inf t
  | finite s m, finite t n =>
    let z := units (finite s m) + units (finite t n)
    if z = 0 then finite (s && t) 0 else round (decide (z < 0)) z.natAbs

/-- Binary64 negation. -/
def neg : Double → Double
  | finite s m => finite (!s) m
  | inf s => inf (!s)
  | nan => nan

/-- Binary64 subtraction: `a - b` is `a + (-b)`. -/
def sub (a b : Double) : Double :=
  add a (neg b)

/-- The comparison `a < b` of C++; `false` when either side is NaN. -/
def lt : Double → Double → Bool
  | nan, _ => false
  | _, nan => false
  | inf s, inf t => s && !t
  | inf s, finite _ _ => s
  | finite _ _, inf t => !t
  | finite s m, finite t n => decide (units (finite s m) < units (finite t n))

/-- The comparison `a <= b` of C++; `false` when either side is NaN. -/
def le : Double → Double → Bool
  | nan, _ => false
  | _, nan => false
  | inf s, inf t => s || !t
  | inf s, finite _ _ => s
  | finite _ _, inf t => !t
  | finite s m, finite t n => decide (units (finite s m) ≤ units (finite t n))

/-- Conversion of a whole number to `double`, as for `double x = n`. -/
def ofInt (n : Int) : Double :=
  if n = 0 then zero else round (decide (n < 0)) (n.natAbs * 2 ^ 1074)

/-- The `double` nearest to `n / 2`, so that `ofHalves 51` is `25.5`. -/
def ofHalves (n : Int) : Double :=
  if n = 0 then zero else round (decide (n < 0)) (n.natAbs * 2 ^ 1073)

end Double

/-! ## Data model -/

/-- Class `Name`. -/
structure Name where
  firstName : String
  lastName : String
  deriving DecidableEq, Repr

/-- Class `Depositor`. -/
structure Depositor where
  name : Name
  socialSecurityNumber : String
  address : String
  phone : String
  email : String
  password : String
  deriving DecidableEq, Repr

/-- Class `BankAccount`; the structure constructor is the C++ constructor, which
stores its three arguments unchecked. -/
structure BankAccount where
  depositor : Depositor
  accountNumber : Int
  balance : Double
  deriving DecidableEq, Repr

/-- One operand inserted into `cout`. -/
inductive Out where
  /-- A string literal. -/
  | text (s : String)
  /-- A `double` inserted after `fixed << setprecision(2)`. -/
  | money (x : Double)
  /-- An `int`. -/
  | int (n : Int)
  /-- The manipulator `endl`. -/
  | endl
  deriving DecidableEq, Repr

/-! ## Ledger -/

/-- Method `BankAccount::deposit`: the updated account and what was printed. The
test `amount > 0.0` is `0.0 < amount`; `balance += amount` is binary64 addition. -/
def BankAccount.deposit (self : BankAccount) (amount : Double) : BankAccount × List Out :=
  if Double.lt Double.zero amount then
    ({ self with balance := Double.add self.balance amount },
      [Out.text "Successfully deposited $", Out.money amount,
        Out.text " to account #", Out.int self.accountNumber, Out.endl])
  else
    (self, [Out.text "Error: Deposit amount must be greater than zero.", Out.endl])

/-- Result of `BankAccount::withdraw`: the returned `bool`, the account after the
call and what was printed. -/
structure WithdrawResult where
  ok : Bool
  account : BankAccount
  out : List Out
  deriving DecidableEq, Repr

/-- Method `BankAccount::withdraw`. The test `amount > balance` is
`balance < amount`; `balance -= amount` is binary64 subtraction. -/
def BankAccount.withdraw (self : BankAccount) (amount : Double) : WithdrawResult :=
  if Double.lt self.balance amount then
    { ok := false
      account := self
      out := [Out.text "Error: Insufficient funds for withdrawal from account #",
        Out.int self.accountNumber, Out.endl] }
  else
    { ok := true
      account := { self with balance := Double.sub self.balance amount }
      out := [Out.text "Successfully withdrew $", Out.money amount,
        Out.text " from account #", Out.int self.accountNumber, Out.endl] }

/-- A ledger call. -/
inductive Op where
  | deposit (amount : Double)
  | withdraw (amount : Double)
  deriving DecidableEq, Repr

/-- The amount passed to a ledger call. -/
def Op.amount : Op → Double
  | Op.deposit amount => amount
  | Op.withdraw amount => amount

/-- The account after one ledger call. -/
def Op.apply (acct : BankAccount) : Op → BankAccount
  | Op.deposit amount => (acct.deposit amount).1
  | Op.withdraw amount => (acct.withdraw amount).account

/-- The account after a finite sequence of ledger calls, run left to right. -/
def runOps (acct : BankAccount) (ops : List Op) : BankAccount :=
  ops.foldl Op.apply acct

/-! ## Transaction log -/

/-- Function `logTransaction`. `opens` tells whether `transaction_log.txt` could be
opened for appending; `log` is the lines of the file. Returns the lines after
the call and what was printed. -/
def logTransaction (opens : Bool) (log : List String) (message : String) :
    List String × List Out :=
  if opens then
    (log ++ [message], [])
  else
    (log, [Out.text "Error: Unable to open transaction log file.", Out.endl])

/-! ## Account store -/

/-- A row of the table `accounts`, with the columns named in the `INSERT`
statement of `insertAccountToDatabase`. -/
structure AccountRow where
  account_number : Int
  first_name : String
  last_name : String
  ssn : String
  address : String
  phone : String
  email : String
  password : String
  balance : Double
  deriving DecidableEq, Repr

/-- Modelled from the spec: the declaration of the table `accounts`, and with it
the comparison that `WHERE ssn = ? AND password = ?` applies to the two text columns,
is not part of the source. The spec states that both fields "match exactly
(case-sensitive, no hashing)", so the comparison is equality of strings. -/
def sqlTextEq (column param : String) : Bool :=
  column == param

/-- The result set of
`SELECT * FROM accounts WHERE ssn = ? AND password = ?`. -/
def selectByCredentials (store : List AccountRow) (ssn password : String) :
    List AccountRow :=
  store.filter fun r => sqlTextEq r.ssn ssn && sqlTextEq r.password password

/-- Function `authenticateUser`: `res->next()` on the result set, that is, whether
it has a first row. -/
def authenticateUser (store : List AccountRow) (ssn password : String) : Bool :=
  !(selectByCredentials store ssn password).isEmpty

/-- The result set of
`SELECT account_number FROM accounts WHERE account_number = ?`. -/
def selectByAccountNumber (store : List AccountRow) (accountNumber : Int) : List Int :=
  (store.filter fun r => r.account_number == accountNumber).map AccountRow.account_number

/-- Function `accountExistsInDatabase`. -/
def accountExistsInDatabase (store : List AccountRow) (accountNumber : Int) : Bool :=
  !(selectByAccountNumber store accountNumber).isEmpty

/-- The row bound to the nine parameters of the `INSERT` statement. -/
def BankAccount.toRow (account : BankAccount) : AccountRow :=
  { account_number := account.accountNumber
    first_name := account.depositor.name.firstName
    last_name := account.depositor.name.lastName
    ssn := account.depositor.socialSecurityNumber
    address := account.depositor.address
    phone := account.depositor.phone
    email := account.depositor.email
    password := account.depositor.password
    balance := account.balance }

/-- Function `insertAccountToDatabase`: the table after the call and what was
printed. -/
def insertAccountToDatabase (store : List AccountRow) (account : BankAccount) :
    List AccountRow × List Out :=
  if accountExistsInDatabase store account.accountNumber then
    (store, [Out.text "Account already exists in database.", Out.endl])
  else
    (store ++ [account.toRow], [Out.text "Account inserted into MySQL database.", Out.endl])

/-! ## Orchestrator -/

/-- The values read from `cin` by `createNewAccount`, in reading order. -/
structure NewAccountInput where
  first : String
  last : String
  ssn : String
  address : String
  phone : String
  email : String
  password : String
  accountNumber : Int
  balance : Double
  deriving DecidableEq, Repr

/-- Everything `createNewAccount` can read or change: the vector `accounts` of
`main`, the table, the lines of `transaction_log.txt`, whether that file can be
opened, and the items printed so far. -/
structure System where
  accounts : List BankAccount
  store : List AccountRow
  log : List String
  logOpens : Bool
  out : List Out
  deriving DecidableEq, Repr

/-- The nine prompts that `createNewAccount` prints while reading its input. -/
def createPrompts : List Out :=
  [Out.text "Enter First Name: ", Out.text "Enter Last Name: ", Out.text "Enter SSN: ",
    Out.text "Enter Address: ", Out.text "Enter Phone: ", Out.text "Enter Email: ",
    Out.text "Set Password: ", Out.text "Enter New Account Number: ",
    Out.text "Enter Initial Balance: "]

/-- The `BankAccount newAccount(depositor, accountNumber, balance)` that
`createNewAccount` constructs from its input. -/
def NewAccountInput.newAccount (inp : NewAccountInput) : BankAccount :=
  let name : Name := { firstName := inp.first, lastName := inp.last }
  let depositor : Depositor :=
    { name := name, socialSecurityNumber := inp.ssn, address := inp.address,
      phone := inp.phone, email := inp.email, password := inp.password }
  { depositor := depositor, accountNumber := inp.accountNumber, balance := inp.balance }

/-- Function `createNewAccount`. -/
def createNewAccount (sys : System) (inp : NewAccountInput) : System :=
  let newAccount := inp.newAccount
  let accounts := sys.accounts ++ [newAccount]
  let inserted := insertAccountToDatabase sys.store newAccount
  let created := [Out.text "Account created successfully!\n"]
  let logged :=
    logTransaction sys.logOpens sys.log ("Created account #" ++ toString inp.accountNumber)
  { accounts := accounts
    store := inserted.1
    log := logged.1
    logOpens := sys.logOpens
    out := sys.out ++ createPrompts ++ inserted.2 ++ created ++ logged.2 }

/-! ## Sample values -/

/-- A depositor used in the concrete instances. -/
def sampleDepositor : Depositor :=
  { name := { firstName := "Ada", lastName := "Byron" }
    socialSecurityNumber := "123-45-6789"
    address := "1 Main St"
    phone := "555-0100"
    email := "ada@example.org"
    password := "Secret" }

/-- Account number 1001 of the sample depositor with the given balance. -/
def sampleAccount (bal : Double) : BankAccount :=
  { depositor := sampleDepositor, accountNumber := 1001, balance := bal }

/-- The sample depositor under a second account number. -/
def otherAccount (bal : Double) : BankAccount :=
  { depositor := sampleDepositor, accountNumber := 2002, balance := bal }

/-- A table holding the row of account 1001 with balance 100.00. -/
def sampleStore : List AccountRow :=
  [(sampleAccount (Double.ofInt 100)).toRow]

/-- A running system that already holds account 1001 in memory, in the table and
in the log. -/
def sampleSystem : System :=
  { accounts := [sampleAccount (Double.ofInt 100)]
    store := sampleStore
    log := ["Created account #1001"]
    logOpens := true
    out := [] }

/-- Input for `createNewAccount` that reuses account number 1001. -/
def duplicateInput : NewAccountInput :=
  { first := "Eve", last := "Moneypenny", ssn := "987-65-4321", address := "2 Side St",
    phone := "555-0199", email := "eve@example.org", password := "hunter2",
    accountNumber := 1001, balance := Double.ofInt 5 }

/-- Input for `createNewAccount` with a fresh account number and the initial
balance -50.00. -/
def negativeInput : NewAccountInput :=
  { first := "Eve", last := "Moneypenny", ssn := "987-65-4321", address := "2 Side St",
    phone := "555-0199", email := "eve@example.org", password := "hunter2",
    accountNumber := 2002, balance := Double.ofInt (-50) }

/-- Input for `createNewAccount` with a fresh account number and the initial
balance 250.00. -/
def freshInput : NewAccountInput :=
  { first := "Eve", last := "Moneypenny", ssn := "987-65-4321", address := "2 Side St",
    phone := "555-0199", email := "eve@example.org", password := "hunter2",
    accountNumber := 2002, balance := Double.ofInt 250 }

/-- The ledger calls of the scenario in the spec, followed by a withdrawal of a
negative amount and a deposit of zero. -/
def scenarioOps : List Op :=
  [Op.withdraw (Double.ofInt 150), Op.withdraw (Double.ofInt 40),
    Op.deposit (Double.ofInt (-5)), Op.deposit (Double.ofHalves 51),
    Op.withdraw (Double.ofInt (-3)), Op.deposit Double.zero]

/-! ## Binary64 arithmetic: lemmas -/

/-- Rounding keeps the sign: the result is finite with the given sign, or the
infinity of that sign. -/
theorem Double.round_cases (neg : Bool) (n : Nat) :
    (∃ m, Double.round neg n = Double.finite neg m) ∨
      Double.round neg n = Double.inf neg := by
  unfold Double.round
  simp only
  split_ifs
  all_goals first
    | exact Or.inl ⟨_, rfl⟩
    | exact Or.inr rfl

/-- A representable magnitude is left unchanged by rounding. -/
theorem Double.round_of_representable (neg : Bool) (n : Nat)
    (h : Double.Representable n) : Double.round neg n = Double.finite neg n := by
  unfold Double.round
  split
  · rfl
  · rename_i hbig
    rcases h with h | ⟨hdvd, hlt⟩
    · exact absurd h hbig
    · have hmod : n % 2 ^ (Double.bitLength n - 53) = 0 := Nat.mod_eq_zero_of_dvd hdvd
      have hpos : 0 < 2 ^ (Double.bitLength n - 53 - 1) := Nat.two_pow_pos _
      have hmul : n / 2 ^ (Double.bitLength n - 53) * 2 ^ (Double.bitLength n - 53) = n :=
        Nat.div_mul_cancel hdvd
      simp only [hmod]
      have hc : ¬ (2 ^ (Double.bitLength n - 53 - 1) < 0 ∨
          (0 = 2 ^ (Double.bitLength n - 53 - 1) ∧
            n / 2 ^ (Double.bitLength n - 53) % 2 = 1)) := by
        rintro (h1 | ⟨h2, _⟩)
        · exact absurd h1 (Nat.not_lt_zero _)
        · omega
      rw [if_neg hc, hmul, if_pos hlt]

/-- The units of either zero are `0`. -/
theorem Double.units_finite_zero (s : Bool) : Double.units (Double.finite s 0) = 0 := by
  cases s <;> rfl

/-- A rounded non-negative magnitude is `>= 0.0`. -/
theorem Double.zero_le_round (n : Nat) :
    Double.le Double.zero (Double.round false n) = true := by
  rcases Double.round_cases false n with ⟨m, hm⟩ | hinf
  · rw [hm]
    simp [Double.le, Double.zero, Double.units]
  · rw [hinf]
    rfl

/-- If `a <= b` then `b < a` is false. -/
theorem Double.lt_eq_false_of_le (a b : Double) (h : Double.le a b = true) :
    Double.lt b a = false := by
  cases a <;> cases b <;> simp_all [Double.le, Double.lt]
  rename_i s t
  cases s <;> cases t <;> simp_all

/-- If `a < b` then `a <= b`. -/
theorem Double.le_of_lt (a b : Double) (h : Double.lt a b = true) :
    Double.le a b = true := by
  cases a <;> cases b <;> simp_all [Double.le, Double.lt]
  exact Int.le_of_lt h

/-- The sum of a value `>= 0.0` and a finite value `>= 0.0` is `>= 0.0`. -/
theorem Double.zero_le_add (b a : Double) (hb : Double.le Double.zero b = true)
    (hf : a.isFinite = true) (ha : Double.le Double.zero a = true) :
    Double.le Double.zero (Double.add b a) = true := by
  cases a with
  | nan => simp [Double.isFinite] at hf
  | inf t => simp [Double.isFinite] at hf
  | finite t n =>
    cases b with
    | nan => simp [Double.le, Double.zero] at hb
    | inf s =>
      cases s
      · rfl
      · simp [Double.le, Double.zero] at hb
    | finite s m =>
      have hb0 : 0 ≤ Double.units (Double.finite s m) := by
        simpa [Double.le, Double.zero, Double.units] using hb
      have ha0 : 0 ≤ Double.units (Double.finite t n) := by
        simpa [Double.le, Double.zero, Double.units] using ha
      unfold Double.add
      simp only
      split
      · simp [Double.le, Double.zero, Double.units]
      · rename_i hz
        have hneg : decide (Double.units (Double.finite s m) +
            Double.units (Double.finite t n) < 0) = false := by
          rw [decide_eq_false_iff_not]
          omega
        rw [hneg]
        exact Double.zero_le_round _

/-- The difference `b - a` is `>= 0.0` when `b >= 0.0`, `a` is finite and
`b < a` is false. -/
theorem Double.zero_le_sub (b a : Double) (hb : Double.le Double.zero b = true)
    (hf : a.isFinite = true) (hlt : Double.lt b a = false) :
    Double.le Double.zero (Double.sub b a) = true := by
  cases a with
  | nan => simp [Double.isFinite] at hf
  | inf t => simp [Double.isFinite] at hf
  | finite t n =>
    cases b with
    | nan => simp [Double.le, Double.zero] at hb
    | inf s =>
      cases s
      · rfl
      · simp [Double.le, Double.zero] at hb
    | finite s m =>
      have hb0 : 0 ≤ Double.units (Double.finite s m) := by
        simpa [Double.le, Double.zero, Double.units] using hb
      have hle : Double.units (Double.finite t n) ≤ Double.units (Double.finite s m) := by
        simpa [Double.lt] using hlt
      have hnegu : Double.units (Double.finite (!t) n) = -Double.units (Double.finite t n) := by
        cases t <;> simp [Double.units]
      unfold Double.sub Double.neg Double.add
      simp only
      split
      · simp [Double.le, Double.zero, Double.units]
      · rename_i hz
        have hneg : decide (Double.units (Double.finite s m) +
            Double.units (Double.finite (!t) n) < 0) = false := by
          rw [decide_eq_false_iff_not, hnegu]
          omega
        rw [hneg]
        exact Double.zero_le_round _

/-- A whole number of units, stored as sign and magnitude, has that exact value. -/
theorem Double.units_finite_natAbs (z : Int) :
    (Double.finite (decide (z < 0)) z.natAbs).units = z := by
  unfold Double.units
  by_cases h : z < 0
  · simp only [h, decide_True, if_true]
    omega
  · simp only [h, decide_False, Bool.false_eq_true, if_false]
    omega

/-- On finite values `a < b` compares the exact values. -/
theorem Double.lt_eq_of_finite (a b : Double) (ha : a.isFinite = true)
    (hb : b.isFinite = true) : Double.lt a b = decide (a.units < b.units) := by
  cases a <;> cases b <;> simp_all [Double.isFinite, Double.lt]

/-- When the exact sum of two finite values is representable, binary64 addition
returns it: the result is finite and has exactly that value. -/
theorem Double.add_of_representable (a b : Double) (ha : a.isFinite = true)
    (hb : b.isFinite = true) (hr : Double.Representable (a.units + b.units).natAbs) :
    (Double.add a b).isFinite = true ∧ (Double.add a b).units = a.units + b.units := by
  cases a with
  | nan => simp [Double.isFinite] at ha
  | inf s => simp [Double.isFinite] at ha
  | finite s m =>
    cases b with
    | nan => simp [Double.isFinite] at hb
    | inf t => simp [Double.isFinite] at hb
    | finite t n =>
      unfold Double.add
      simp only
      split
      · rename_i hz
        rw [hz]
        exact ⟨rfl, Double.units_finite_zero _⟩
      · rename_i hz
        rw [Double.round_of_representable _ _ hr]
        exact ⟨rfl, Double.units_finite_natAbs _⟩

/-- Negation of a finite value negates its exact value. -/
theorem Double.neg_finite (a : Double) (ha : a.isFinite = true) :
    (Double.neg a).isFinite = true ∧ (Double.neg a).units = -a.units := by
  cases a with
  | nan => simp [Double.isFinite] at ha
  | inf s => simp [Double.isFinite] at ha
  | finite s m => cases s <;> simp [Double.neg, Double.isFinite, Double.units]

/-- When the exact difference of two finite values is representable, binary64
subtraction returns it: the result is finite and has exactly that value. -/
theorem Double.sub_of_representable (a b : Double) (ha : a.isFinite = true)
    (hb : b.isFinite = true) (hr : Double.Representable (a.units - b.units).natAbs) :
    (Double.sub a b).isFinite = true ∧ (Double.sub a b).units = a.units - b.units := by
  have hn := Double.neg_finite b hb
  have hr2 : Double.Representable (a.units + (Double.neg b).units).natAbs := by
    rw [hn.2, ← sub_eq_add_neg]
    exact hr
  have h := Double.add_of_representable a (Double.neg b) ha hn.1 hr2
  unfold Double.sub
  refine ⟨h.1, ?_⟩
  rw [h.2, hn.2, sub_eq_add_neg]

/-! ## Ledger: theorems -/

/-- Closed form of `withdraw`: it returns `true` exactly when `amount > balance`
is false. -/
theorem withdraw_ok_iff (acct : BankAccount) (amount : Double) :
    (acct.withdraw amount).ok = true ↔ Double.lt acct.balance amount = false := by
  unfold BankAccount.withdraw
  split
  · rename_i h
    simp [h]
  · rename_i h
    simp [h]

/-- The balance after `withdraw`. -/
theorem withdraw_balance (acct : BankAccount) (amount : Double) :
    (acct.withdraw amount).account.balance =
      if Double.lt acct.balance amount then acct.balance
      else Double.sub acct.balance amount := by
  unfold BankAccount.withdraw
  split <;> rfl

/-- The balance after `deposit`. -/
theorem deposit_balance (acct : BankAccount) (amount : Double) :
    (acct.deposit amount).1.balance =
      if Double.lt Double.zero amount then Double.add acct.balance amount
      else acct.balance := by
  unfold BankAccount.deposit
  split <;> rfl

/-- A ledger call with a finite amount keeps a balance that is `>= 0.0` so. -/
theorem Op.apply_balance_nonneg (acct : BankAccount) (op : Op)
    (hf : op.amount.isFinite = true) (h : Double.le Double.zero acct.balance = true) :
    Double.le Double.zero (Op.apply acct op).balance = true := by
  cases op with
  | deposit amount =>
    show Double.le Double.zero (acct.deposit amount).1.balance = true
    rw [deposit_balance]
    split
    · rename_i hpos
      exact Double.zero_le_add acct.balance amount h hf (Double.le_of_lt _ _ hpos)
    · exact h
  | withdraw amount =>
    show Double.le Double.zero (acct.withdraw amount).account.balance = true
    rw [withdraw_balance]
    split
    · exact h
    · rename_i hlt
      exact Double.zero_le_sub acct.balance amount h hf (by simpa using hlt)

/-- A sequence of ledger calls with finite amounts keeps a balance that is
`>= 0.0` so. -/
theorem runOps_balance_nonneg (ops : List Op) :
    ∀ acct : BankAccount, (∀ op ∈ ops, op.amount.isFinite = true) →
      Double.le Double.zero acct.balance = true →
      Double.le Double.zero (runOps acct ops).balance = true := by
  induction ops with
  | nil => intro acct _ h; exact h
  | cons op rest ih =>
    intro acct hf h
    show Double.le Double.zero (runOps (Op.apply acct op) rest).balance = true
    exact ih _ (fun o ho => hf o (List.mem_cons_of_mem _ ho))
      (Op.apply_balance_nonneg acct op (hf op (List.mem_cons_self _ _)) h)

/-- C1 (evaluation at the failing inputs): on an account with balance 100.00,
`withdraw(-5.00)` returns `true` and leaves the balance at 105.00, and
`withdraw(0.00)` returns `true`; neither amount satisfies `0 < amount`. -/
theorem withdraw_nonpositive_amount_accepted :
    ((sampleAccount (Double.ofInt 100)).withdraw (Double.ofInt (-5))).ok = true ∧
      ((sampleAccount (Double.ofInt 100)).withdraw (Double.ofInt (-5))).account.balance =
        Double.ofInt 105 ∧
      ((sampleAccount (Double.ofInt 100)).withdraw Double.zero).ok = true ∧
      Double.lt Double.zero (Double.ofInt (-5)) = false ∧
      Double.lt Double.zero Double.zero = false := by
  decide

/-- C2: for every account with balance `>= 0` and every finite sequence of
`deposit` and `withdraw` calls whose amounts are arbitrary finite numbers
(positive, zero or negative), the balance is `>= 0` after each call of the
sequence (after the first `k` calls, for every `k`). -/
theorem balance_nonneg_invariant (acct : BankAccount) (ops : List Op)
    (h : Double.le Double.zero acct.balance = true)
    (hf : ∀ op ∈ ops, op.amount.isFinite = true) :
    ∀ k : Nat, Double.le Double.zero (runOps acct (ops.take k)).balance = true :=
  fun k => runOps_balance_nonneg (ops.take k) acct
    (fun o ho => hf o (List.mem_of_mem_take ho)) h

/-- Instance of C2: the scenario of the spec, extended by a withdrawal of a
negative amount and a deposit of zero, started at balance 100.00; after two
calls the balance is 60.00. -/
theorem balance_nonneg_invariant_witness :
    (Double.le Double.zero (sampleAccount (Double.ofInt 100)).balance = true ∧
        ∀ op ∈ scenarioOps, op.amount.isFinite = true) ∧
      Double.le Double.zero
        (runOps (sampleAccount (Double.ofInt 100)) (scenarioOps.take 2)).balance = true ∧
      Double.le Double.zero
        (runOps (sampleAccount (Double.ofInt 100)) (scenarioOps.take 6)).balance = true ∧
      (runOps (sampleAccount (Double.ofInt 100)) (scenarioOps.take 2)).balance =
        Double.ofInt 60 :=
  ⟨⟨by decide, by decide⟩,
    balance_nonneg_invariant (sampleAccount (Double.ofInt 100)) scenarioOps
      (by decide) (by decide) 2,
    balance_nonneg_invariant (sampleAccount (Double.ofInt 100)) scenarioOps
      (by decide) (by decide) 6,
    by decide⟩

/-- C3: for every account and every amount `<= 0`, `deposit` returns the account
unchanged and prints the line "Error: Deposit amount must be greater than zero.";
the success text is not among the printed items. -/
theorem deposit_nonpos_rejected (acct : BankAccount) (amount : Double)
    (h : Double.le amount Double.zero = true) :
    acct.deposit amount =
        (acct, [Out.text "Error: Deposit amount must be greater than zero.", Out.endl]) ∧
      Out.text "Successfully deposited $" ∉ (acct.deposit amount).2 := by
  have hn : Double.lt Double.zero amount = false := Double.lt_eq_false_of_le _ _ h
  simp [BankAccount.deposit, hn]

/-- Instance of C3 at balance 60.00 and amount -5.00. -/
theorem deposit_nonpos_rejected_witness :
    (Double.le (Double.ofInt (-5)) Double.zero = true) ∧
      ((sampleAccount (Double.ofInt 60)).deposit (Double.ofInt (-5)) =
          (sampleAccount (Double.ofInt 60),
            [Out.text "Error: Deposit amount must be greater than zero.", Out.endl]) ∧
        Out.text "Successfully deposited $" ∉
          ((sampleAccount (Double.ofInt 60)).deposit (Double.ofInt (-5))).2) :=
  ⟨by decide,
    deposit_nonpos_rejected (sampleAccount (Double.ofInt 60)) (Double.ofInt (-5)) (by decide)⟩

/-- C4: for every account and every amount greater than the balance, `withdraw`
returns `false`, leaves the account unchanged and prints the insufficient-funds
line for that account number. -/
theorem withdraw_insufficient_declined (acct : BankAccount) (amount : Double)
    (h : Double.lt acct.balance amount = true) :
    acct.withdraw amount =
      { ok := false
        account := acct
        out := [Out.text "Error: Insufficient funds for withdrawal from account #",
          Out.int acct.accountNumber, Out.endl] } := by
  simp [BankAccount.withdraw, h]

/-- Instance of C4: balance 100.00, `withdraw(150.00)` returns `false` and the
balance is still 100.00. -/
theorem withdraw_insufficient_declined_witness :
    Double.lt (sampleAccount (Double.ofInt 100)).balance (Double.ofInt 150) = true ∧
      (sampleAccount (Double.ofInt 100)).withdraw (Double.ofInt 150) =
        { ok := false
          account := sampleAccount (Double.ofInt 100)
          out := [Out.text "Error: Insufficient funds for withdrawal from account #",
            Out.int (sampleAccount (Double.ofInt 100)).accountNumber, Out.endl] } ∧
      ((sampleAccount (Double.ofInt 100)).withdraw (Double.ofInt 150)).account.balance =
        Double.ofInt 100 := by
  have h : Double.lt (sampleAccount (Double.ofInt 100)).balance (Double.ofInt 150) = true := by
    decide
  have e := withdraw_insufficient_declined (sampleAccount (Double.ofInt 100))
    (Double.ofInt 150) h
  exact ⟨h, e, by rw [e]; rfl⟩

/-- C5 (counterexample): on an account with balance 1e16, `deposit(1.0)` prints
the success line and returns the account with balance 1e16 again: the exact sum
1e16 + 1 is not a `double` and rounds back, so the balance is not
`balance + amount`. -/
theorem deposit_sum_rounds_away :
    Double.lt Double.zero (Double.ofInt 1) = true ∧
      (sampleAccount (Double.ofInt (10 ^ 16))).deposit (Double.ofInt 1) =
        (sampleAccount (Double.ofInt (10 ^ 16)),
          [Out.text "Successfully deposited $", Out.money (Double.ofInt 1),
            Out.text " to account #", Out.int 1001, Out.endl]) ∧
      ((sampleAccount (Double.ofInt (10 ^ 16))).deposit (Double.ofInt 1)).1.balance.units ≠
        (Double.ofInt (10 ^ 16)).units + (Double.ofInt 1).units := by
  decide

/-- C5 (amended): for every account and every amount `> 0`, `deposit` returns the
same account (depositor and account number as before) with the binary64 sum of
balance and amount as balance, and prints the success line carrying that amount
and account number; when balance and amount are finite and their exact sum is
representable, the new balance is finite and is exactly `balance + amount`. -/
theorem deposit_positive_accepted (acct : BankAccount) (amount : Double)
    (h : Double.lt Double.zero amount = true) :
    acct.deposit amount =
        ({ depositor := acct.depositor
           accountNumber := acct.accountNumber
           balance := Double.add acct.balance amount },
          [Out.text "Successfully deposited $", Out.money amount,
            Out.text " to account #", Out.int acct.accountNumber, Out.endl]) ∧
      (acct.balance.isFinite = true → amount.isFinite = true →
        Double.Representable (acct.balance.units + amount.units).natAbs →
        (acct.deposit amount).1.balance.isFinite = true ∧
          (acct.deposit amount).1.balance.units = acct.balance.units + amount.units) := by
  have e : acct.deposit amount =
      ({ depositor := acct.depositor
         accountNumber := acct.accountNumber
         balance := Double.add acct.balance amount },
        [Out.text "Successfully deposited $", Out.money amount,
          Out.text " to account #", Out.int acct.accountNumber, Out.endl]) := by
    simp [BankAccount.deposit, h]
  refine ⟨e, ?_⟩
  intro hb ha hr
  rw [e]
  exact Double.add_of_representable acct.balance amount hb ha hr

/-- Instance of C5 (amended): balance 60.00, `deposit(25.50)` gives balance 85.50,
the exact sum. -/
theorem deposit_positive_accepted_witness :
    (Double.lt Double.zero (Double.ofHalves 51) = true ∧
        (sampleAccount (Double.ofInt 60)).balance.isFinite = true ∧
        (Double.ofHalves 51).isFinite = true ∧
        Double.Representable ((sampleAccount (Double.ofInt 60)).balance.units +
          (Double.ofHalves 51).units).natAbs) ∧
      (sampleAccount (Double.ofInt 60)).deposit (Double.ofHalves 51) =
        (sampleAccount (Double.ofHalves 171),
          [Out.text "Successfully deposited $", Out.money (Double.ofHalves 51),
            Out.text " to account #", Out.int 1001, Out.endl]) ∧
      ((sampleAccount (Double.ofInt 60)).deposit (Double.ofHalves 51)).1.balance.units =
        (sampleAccount (Double.ofInt 60)).balance.units + (Double.ofHalves 51).units := by
  have h : Double.lt Double.zero (Double.ofHalves 51) = true := by decide
  have hb : (sampleAccount (Double.ofInt 60)).balance.isFinite = true := by decide
  have ha : (Double.ofHalves 51).isFinite = true := by decide
  have hr : Double.Representable ((sampleAccount (Double.ofInt 60)).balance.units +
      (Double.ofHalves 51).units).natAbs := by decide
  have t := deposit_positive_accepted (sampleAccount (Double.ofInt 60)) (Double.ofHalves 51) h
  refine ⟨⟨h, hb, ha, hr⟩, ?_, (t.2 hb ha hr).2⟩
  rw [t.1]
  decide

/-- C6 (counterexample): with balance `B = 1e16 + 2`, `withdraw(3)` and then
`withdraw(1e16)` both return `true` although `a + b > B`, in exact arithmetic
and in binary64 arithmetic alike: `B - 3` rounds up to 1e16. -/
theorem double_withdraw_both_accepted_beyond_balance :
    (Double.le Double.zero (Double.ofInt (10 ^ 16 + 2)) = true ∧
        Double.lt Double.zero (Double.ofInt 3) = true ∧
        Double.lt Double.zero (Double.ofInt (10 ^ 16)) = true) ∧
      ((sampleAccount (Double.ofInt (10 ^ 16 + 2))).withdraw (Double.ofInt 3)).ok = true ∧
      (((sampleAccount (Double.ofInt (10 ^ 16 + 2))).withdraw (Double.ofInt 3)).account.withdraw
        (Double.ofInt (10 ^ 16))).ok = true ∧
      (Double.ofInt (10 ^ 16 + 2)).units <
        (Double.ofInt 3).units + (Double.ofInt (10 ^ 16)).units ∧
      Double.lt (Double.ofInt (10 ^ 16 + 2))
        (Double.add (Double.ofInt 3) (Double.ofInt (10 ^ 16))) = true ∧
      ((sampleAccount (Double.ofInt (10 ^ 16 + 2))).withdraw (Double.ofInt 3)).account.balance =
        Double.ofInt (10 ^ 16) := by
  decide

/-- C6 (amended): two withdrawals of finite positive amounts `a` then `b`, run one
after the other on an account with finite balance `B >= 0`: both return `true`
iff neither `a > B` nor `b > fl(B - a)` holds, where `fl(B - a)` is the binary64
difference that the first call stores; when the exact difference `B - a` is
representable, both return `true` iff `a + b <= B` (exact sum), and so they do
not both return `true` when `a + b > B`; the first returns `true` whenever
`a <= B`; and the final balance is `>= 0`. -/
theorem serialised_double_withdraw (acct : BankAccount) (a b : Double)
    (hB : Double.le Double.zero acct.balance = true) (hBf : acct.balance.isFinite = true)
    (haf : a.isFinite = true) (hbf : b.isFinite = true)
    (_ha : Double.lt Double.zero a = true) (hb : Double.lt Double.zero b = true) :
    (((acct.withdraw a).ok = true ∧ ((acct.withdraw a).account.withdraw b).ok = true) ↔
        (Double.lt acct.balance a = false ∧
          Double.lt (Double.sub acct.balance a) b = false)) ∧
      (Double.Representable (acct.balance.units - a.units).natAbs →
        (((acct.withdraw a).ok = true ∧ ((acct.withdraw a).account.withdraw b).ok = true) ↔
          a.units + b.units ≤ acct.balance.units)) ∧
      (Double.Representable (acct.balance.units - a.units).natAbs →
        acct.balance.units < a.units + b.units →
        ¬ ((acct.withdraw a).ok = true ∧
          ((acct.withdraw a).account.withdraw b).ok = true)) ∧
      (Double.le a acct.balance = true → (acct.withdraw a).ok = true) ∧
      Double.le Double.zero ((acct.withdraw a).account.withdraw b).account.balance = true := by
  have key : ((acct.withdraw a).ok = true ∧
      ((acct.withdraw a).account.withdraw b).ok = true) ↔
      (Double.lt acct.balance a = false ∧
        Double.lt (Double.sub acct.balance a) b = false) := by
    rw [withdraw_ok_iff, withdraw_ok_iff, withdraw_balance]
    constructor
    · rintro ⟨h1, h2⟩
      rw [h1] at h2
      exact ⟨h1, by simpa using h2⟩
    · rintro ⟨h1, h2⟩
      rw [h1]
      exact ⟨rfl, by simpa using h2⟩
  have hbpos : 0 < b.units := by
    have := hb
    rw [Double.lt_eq_of_finite Double.zero b rfl hbf] at this
    simpa [Double.zero, Double.units] using this
  have exact : Double.Representable (acct.balance.units - a.units).natAbs →
      (((acct.withdraw a).ok = true ∧ ((acct.withdraw a).account.withdraw b).ok = true) ↔
        a.units + b.units ≤ acct.balance.units) := by
    intro hr
    have hs := Double.sub_of_representable acct.balance a hBf haf hr
    rw [key, Double.lt_eq_of_finite _ _ hBf haf, Double.lt_eq_of_finite _ _ hs.1 hbf, hs.2]
    simp only [decide_eq_false_iff_not, not_lt]
    constructor
    · rintro ⟨_, h2⟩
      omega
    · intro h
      exact ⟨by omega, by omega⟩
  refine ⟨key, exact, ?_, ?_, ?_⟩
  · intro hr hgt hboth
    exact absurd ((exact hr).mp hboth) (not_le.mpr hgt)
  · intro hle
    exact (withdraw_ok_iff acct a).mpr (Double.lt_eq_false_of_le _ _ hle)
  · have h1 : Double.le Double.zero (Op.apply acct (Op.withdraw a)).balance = true :=
      Op.apply_balance_nonneg acct (Op.withdraw a) haf hB
    exact Op.apply_balance_nonneg (acct.withdraw a).account (Op.withdraw b) hbf h1

/-- Instance of C6 (amended) at `B = 100`, `a = 40`, `b = 70`: the difference
`B - a` is exact, the first withdrawal is accepted, the second is declined, and
60 remains. -/
theorem serialised_double_withdraw_witness :
    (Double.le Double.zero (sampleAccount (Double.ofInt 100)).balance = true ∧
        (sampleAccount (Double.ofInt 100)).balance.isFinite = true ∧
        (Double.ofInt 40).isFinite = true ∧ (Double.ofInt 70).isFinite = true ∧
        Double.lt Double.zero (Double.ofInt 40) = true ∧
        Double.lt Double.zero (Double.ofInt 70) = true ∧
        Double.Representable ((sampleAccount (Double.ofInt 100)).balance.units -
          (Double.ofInt 40).units).natAbs ∧
        (sampleAccount (Double.ofInt 100)).balance.units <
          (Double.ofInt 40).units + (Double.ofInt 70).units ∧
        Double.le (Double.ofInt 40) (sampleAccount (Double.ofInt 100)).balance = true) ∧
      ¬ (((sampleAccount (Double.ofInt 100)).withdraw (Double.ofInt 40)).ok = true ∧
        (((sampleAccount (Double.ofInt 100)).withdraw (Double.ofInt 40)).account.withdraw
          (Double.ofInt 70)).ok = true) ∧
      ((sampleAccount (Double.ofInt 100)).withdraw (Double.ofInt 40)).ok = true ∧
      Double.le Double.zero
        (((sampleAccount (Double.ofInt 100)).withdraw (Double.ofInt 40)).account.withdraw
          (Double.ofInt 70)).account.balance = true := by
  have hB : Double.le Double.zero (sampleAccount (Double.ofInt 100)).balance = true := by
    decide
  have hBf : (sampleAccount (Double.ofInt 100)).balance.isFinite = true := by decide
  have haf : (Double.ofInt 40).isFinite = true := by decide
  have hbf : (Double.ofInt 70).isFinite = true := by decide
  have ha : Double.lt Double.zero (Double.ofInt 40) = true := by decide
  have hb : Double.lt Double.zero (Double.ofInt 70) = true := by decide
  have hr : Double.Representable ((sampleAccount (Double.ofInt 100)).balance.units -
      (Double.ofInt 40).units).natAbs := by decide
  have hgt : (sampleAccount (Double.ofInt 100)).balance.units <
      (Double.ofInt 40).units + (Double.ofInt 70).units := by decide
  have hle : Double.le (Double.ofInt 40) (sampleAccount (Double.ofInt 100)).balance = true := by
    decide
  have t := serialised_double_withdraw (sampleAccount (Double.ofInt 100)) (Double.ofInt 40)
    (Double.ofInt 70) hB hBf haf hbf ha hb
  exact ⟨⟨hB, hBf, haf, hbf, ha, hb, hr, hgt, hle⟩, t.2.2.1 hr hgt, t.2.2.2.1 hle, t.2.2.2.2⟩

/-! ## Account store: theorems -/

/-- Function `accountExistsInDatabase` returns `true` exactly when some row of
the table carries the account number. -/
theorem accountExistsInDatabase_iff (store : List AccountRow) (n : Int) :
    accountExistsInDatabase store n = true ↔ ∃ r ∈ store, r.account_number = n := by
  simp [accountExistsInDatabase, selectByAccountNumber, List.isEmpty_iff,
    List.filter_eq_nil_iff]

/-- Function `accountExistsInDatabase` returns `false` exactly when no row of
the table carries the account number. -/
theorem accountExistsInDatabase_eq_false_iff (store : List AccountRow) (n : Int) :
    accountExistsInDatabase store n = false ↔ ∀ r ∈ store, r.account_number ≠ n := by
  rw [← Bool.not_eq_true, accountExistsInDatabase_iff]
  simp

/-- Function `authenticateUser` returns `true` exactly when some row of the table
has both the given `ssn` and the given `password`. -/
theorem authenticateUser_iff (store : List AccountRow) (ssn secret : String) :
    authenticateUser store ssn secret = true ↔
      ∃ r ∈ store, r.ssn = ssn ∧ r.password = secret := by
  simp [authenticateUser, selectByCredentials, sqlTextEq, List.isEmpty_iff,
    List.filter_eq_nil_iff]

/-- Function `insertAccountToDatabase` on an account number that occurs in the
table: the table is returned as it was and the notice is printed. -/
theorem insertAccountToDatabase_of_exists (store : List AccountRow) (account : BankAccount)
    (h : ∃ r ∈ store, r.account_number = account.accountNumber) :
    insertAccountToDatabase store account =
      (store, [Out.text "Account already exists in database.", Out.endl]) := by
  have he := (accountExistsInDatabase_iff store account.accountNumber).mpr h
  simp [insertAccountToDatabase, he]

/-- Function `insertAccountToDatabase` on an account number that does not occur
in the table: the row of the account is appended and the insertion is reported. -/
theorem insertAccountToDatabase_of_fresh (store : List AccountRow) (account : BankAccount)
    (h : ∀ r ∈ store, r.account_number ≠ account.accountNumber) :
    insertAccountToDatabase store account =
      (store ++ [account.toRow],
        [Out.text "Account inserted into MySQL database.", Out.endl]) := by
  have he := (accountExistsInDatabase_eq_false_iff store account.accountNumber).mpr h
  simp [insertAccountToDatabase, he]

/-- C7: if the account number of `account` occurs in the table,
`insertAccountToDatabase` returns the table unchanged and prints
"Account already exists in database."; if it does not occur, the table gains
exactly the one row of that account at its end, and `accountExistsInDatabase`
is `true` for the account number afterwards. -/
theorem insertAccountToDatabase_spec (store : List AccountRow) (account : BankAccount) :
    ((∃ r ∈ store, r.account_number = account.accountNumber) →
        insertAccountToDatabase store account =
          (store, [Out.text "Account already exists in database.", Out.endl])) ∧
      ((∀ r ∈ store, r.account_number ≠ account.accountNumber) →
        (insertAccountToDatabase store account).1 = store ++ [account.toRow] ∧
          account.toRow.account_number = account.accountNumber ∧
          (insertAccountToDatabase store account).1.length = store.length + 1 ∧
          accountExistsInDatabase (insertAccountToDatabase store account).1
            account.accountNumber = true) := by
  constructor
  · exact insertAccountToDatabase_of_exists store account
  · intro h
    have hs : (insertAccountToDatabase store account).1 = store ++ [account.toRow] := by
      rw [insertAccountToDatabase_of_fresh store account h]
    refine ⟨hs, rfl, by simp [hs], ?_⟩
    rw [hs, accountExistsInDatabase_iff]
    exact ⟨account.toRow, by simp, rfl⟩

/-- Instance of C7 on the sample table: inserting account number 1001 again
leaves the table as it is, and inserting account number 2002 appends its row. -/
theorem insertAccountToDatabase_spec_witness :
    ((∃ r ∈ sampleStore, r.account_number = (sampleAccount (Double.ofInt 7)).accountNumber) ∧
        insertAccountToDatabase sampleStore (sampleAccount (Double.ofInt 7)) =
          (sampleStore, [Out.text "Account already exists in database.", Out.endl])) ∧
      ((∀ r ∈ sampleStore, r.account_number ≠ (otherAccount (Double.ofInt 7)).accountNumber) ∧
        (insertAccountToDatabase sampleStore (otherAccount (Double.ofInt 7))).1 =
          sampleStore ++ [(otherAccount (Double.ofInt 7)).toRow]) := by
  have h1 : ∃ r ∈ sampleStore, r.account_number = (sampleAccount (Double.ofInt 7)).accountNumber :=
    ⟨(sampleAccount (Double.ofInt 100)).toRow, by simp [sampleStore], rfl⟩
  have h2 : ∀ r ∈ sampleStore, r.account_number ≠ (otherAccount (Double.ofInt 7)).accountNumber := by
    intro r hr
    simp only [sampleStore, List.mem_singleton] at hr
    subst hr
    simp [BankAccount.toRow, sampleAccount, otherAccount]
  exact ⟨⟨h1, (insertAccountToDatabase_spec sampleStore (sampleAccount (Double.ofInt 7))).1 h1⟩,
    ⟨h2, ((insertAccountToDatabase_spec sampleStore (otherAccount (Double.ofInt 7))).2 h2).1⟩⟩

/-- C8: for every table and every pair of strings, `authenticateUser` returns
`true` iff some row of the table has exactly that `ssn` and exactly that
`password`; so the pair of any stored row authenticates, and a pair that no row
carries is rejected. -/
theorem authenticateUser_spec (store : List AccountRow) (ssn secret : String) :
    (authenticateUser store ssn secret = true ↔
        ∃ r ∈ store, r.ssn = ssn ∧ r.password = secret) ∧
      (∀ r ∈ store, authenticateUser store r.ssn r.password = true) ∧
      ((∀ r ∈ store, ¬ (r.ssn = ssn ∧ r.password = secret)) →
        authenticateUser store ssn secret = false) := by
  refine ⟨authenticateUser_iff store ssn secret, ?_, ?_⟩
  · intro r hr
    exact (authenticateUser_iff store r.ssn r.password).mpr ⟨r, hr, rfl, rfl⟩
  · intro h
    rw [← Bool.not_eq_true, authenticateUser_iff]
    rintro ⟨r, hr, hc⟩
    exact h r hr hc

/-- Instance of C8 on the sample table: the stored pair authenticates, and the
pair with the password in lower case is rejected. -/
theorem authenticateUser_spec_witness :
    authenticateUser sampleStore "123-45-6789" "Secret" = true ∧
      ((∀ r ∈ sampleStore, ¬ (r.ssn = "123-45-6789" ∧ r.password = "secret")) ∧
        authenticateUser sampleStore "123-45-6789" "secret" = false) := by
  have h : ∀ r ∈ sampleStore, ¬ (r.ssn = "123-45-6789" ∧ r.password = "secret") := by
    intro r hr
    simp only [sampleStore, List.mem_singleton] at hr
    subst hr
    simp [BankAccount.toRow, sampleAccount, sampleDepositor]
  exact ⟨(authenticateUser_spec sampleStore "123-45-6789" "Secret").1.mpr
      ⟨(sampleAccount (Double.ofInt 100)).toRow, by simp [sampleStore], rfl, rfl⟩,
    h, (authenticateUser_spec sampleStore "123-45-6789" "secret").2.2 h⟩

/-! ## Orchestrator: theorems -/

/-- Function `createNewAccount` appends the constructed account to `accounts` on
every path. -/
theorem createNewAccount_accounts (sys : System) (inp : NewAccountInput) :
    (createNewAccount sys inp).accounts = sys.accounts ++ [inp.newAccount] :=
  rfl

/-- Function `createNewAccount` leaves the table as `insertAccountToDatabase`
returns it. -/
theorem createNewAccount_store (sys : System) (inp : NewAccountInput) :
    (createNewAccount sys inp).store = (insertAccountToDatabase sys.store inp.newAccount).1 :=
  rfl

/-- What `createNewAccount` does when the entered account number is already in
the table: the table is unchanged, but the account is appended to `accounts`,
"Account created successfully!" is printed after the notice, and (when the log
file opens) the line "Created account #n" is appended to the log. -/
theorem createNewAccount_of_exists (sys : System) (inp : NewAccountInput)
    (h : ∃ r ∈ sys.store, r.account_number = inp.accountNumber) :
    createNewAccount sys inp =
      { accounts := sys.accounts ++ [inp.newAccount]
        store := sys.store
        log := (logTransaction sys.logOpens sys.log
          ("Created account #" ++ toString inp.accountNumber)).1
        logOpens := sys.logOpens
        out := sys.out ++ createPrompts ++
          [Out.text "Account already exists in database.", Out.endl] ++
          [Out.text "Account created successfully!\n"] ++
          (logTransaction sys.logOpens sys.log
            ("Created account #" ++ toString inp.accountNumber)).2 } := by
  have he : insertAccountToDatabase sys.store inp.newAccount =
      (sys.store, [Out.text "Account already exists in database.", Out.endl]) :=
    insertAccountToDatabase_of_exists sys.store inp.newAccount h
  unfold createNewAccount
  simp only [he]

/-- C9 (evaluation at the failing input): on the sample system, whose table
already holds account number 1001, `createNewAccount` with account number 1001
leaves the table unchanged but appends the new account to `accounts`, appends
"Created account #1001" to the log, and prints "Account created successfully!"
right after "Account already exists in database.". -/
theorem createNewAccount_duplicate_not_noop :
    (∃ r ∈ sampleSystem.store, r.account_number = duplicateInput.accountNumber) ∧
      (createNewAccount sampleSystem duplicateInput).store = sampleSystem.store ∧
      (createNewAccount sampleSystem duplicateInput).accounts =
        [sampleAccount (Double.ofInt 100), duplicateInput.newAccount] ∧
      (createNewAccount sampleSystem duplicateInput).accounts ≠ sampleSystem.accounts ∧
      (createNewAccount sampleSystem duplicateInput).log =
        ["Created account #1001", "Created account #1001"] ∧
      (createNewAccount sampleSystem duplicateInput).log ≠ sampleSystem.log ∧
      (createNewAccount sampleSystem duplicateInput).out =
        createPrompts ++ [Out.text "Account already exists in database.", Out.endl,
          Out.text "Account created successfully!\n"] := by
  have h : ∃ r ∈ sampleSystem.store, r.account_number = duplicateInput.accountNumber :=
    ⟨(sampleAccount (Double.ofInt 100)).toRow, by simp [sampleSystem, sampleStore], rfl⟩
  have e := createNewAccount_of_exists sampleSystem duplicateInput h
  have hl : (logTransaction sampleSystem.logOpens sampleSystem.log
      ("Created account #" ++ toString duplicateInput.accountNumber)) =
      (["Created account #1001", "Created account #1001"], []) := by
    decide
  rw [hl] at e
  refine ⟨h, ?_, ?_, ?_, ?_, ?_, ?_⟩
  · rw [e]
  · rw [e]; rfl
  · rw [e]; simp [sampleSystem]
  · rw [e]
  · rw [e]; simp [sampleSystem]
  · rw [e]; simp [sampleSystem]

/-- C10 (counterexample): with the initial balance -50.00 entered for the fresh
account number 2002, the account that `createNewAccount` constructs, appends to
`accounts` and inserts into the table has balance -50.00, which is not `>= 0`. -/
theorem createNewAccount_negative_initial_balance :
    (createNewAccount sampleSystem negativeInput).accounts =
        [sampleAccount (Double.ofInt 100), negativeInput.newAccount] ∧
      (createNewAccount sampleSystem negativeInput).store =
        sampleStore ++ [negativeInput.newAccount.toRow] ∧
      negativeInput.newAccount.balance = Double.ofInt (-50) ∧
      negativeInput.newAccount.toRow.balance = Double.ofInt (-50) ∧
      ¬ (Double.le Double.zero negativeInput.newAccount.balance = true) ∧
      ¬ (∀ a ∈ (createNewAccount sampleSystem negativeInput).accounts,
          Double.le Double.zero a.balance = true) ∧
      ¬ (∀ r ∈ (createNewAccount sampleSystem negativeInput).store,
          Double.le Double.zero r.balance = true) := by
  have hb : negativeInput.newAccount.balance = Double.ofInt (-50) := rfl
  have hr : negativeInput.newAccount.toRow.balance = Double.ofInt (-50) := rfl
  have hneg : ¬ (Double.le Double.zero (Double.ofInt (-50)) = true) := by decide
  have hfresh : ∀ r ∈ sampleSystem.store,
      r.account_number ≠ negativeInput.newAccount.accountNumber := by
    intro r hmem
    simp only [sampleSystem, sampleStore, List.mem_singleton] at hmem
    subst hmem
    simp [BankAccount.toRow, sampleAccount, negativeInput, NewAccountInput.newAccount]
  have hs : (createNewAccount sampleSystem negativeInput).store =
      sampleStore ++ [negativeInput.newAccount.toRow] := by
    rw [createNewAccount_store,
      insertAccountToDatabase_of_fresh sampleSystem.store negativeInput.newAccount hfresh]
    rfl
  have ha : (createNewAccount sampleSystem negativeInput).accounts =
      [sampleAccount (Double.ofInt 100), negativeInput.newAccount] := rfl
  refine ⟨ha, hs, hb, hr, ?_, ?_, ?_⟩
  · rw [hb]; exact hneg
  · intro hall
    have := hall negativeInput.newAccount (by rw [ha]; simp)
    rw [hb] at this
    exact hneg this
  · intro hall
    have := hall negativeInput.newAccount.toRow (by rw [hs]; simp)
    rw [hr] at this
    exact hneg this

/-- C10 (amended): for every initial balance entered, the account that
`createNewAccount` constructs and appends to `accounts`, and whose row it inserts
into the table when the account number is new, carries exactly the entered
balance; so its balance is `>= 0` iff the entered initial balance is `>= 0`. -/
theorem createNewAccount_balance_as_entered (sys : System) (inp : NewAccountInput) :
    (createNewAccount sys inp).accounts = sys.accounts ++ [inp.newAccount] ∧
      inp.newAccount.balance = inp.balance ∧
      ((∀ r ∈ sys.store, r.account_number ≠ inp.accountNumber) →
        (createNewAccount sys inp).store = sys.store ++ [inp.newAccount.toRow]) ∧
      inp.newAccount.toRow.balance = inp.balance ∧
      (Double.le Double.zero inp.newAccount.balance = true ↔
        Double.le Double.zero inp.balance = true) ∧
      (Double.le Double.zero inp.newAccount.toRow.balance = true ↔
        Double.le Double.zero inp.balance = true) := by
  refine ⟨rfl, rfl, ?_, rfl, Iff.rfl, Iff.rfl⟩
  intro h
  rw [createNewAccount_store, insertAccountToDatabase_of_fresh sys.store inp.newAccount h]

/-- Instance of C10 (amended): the initial balance 250.00 entered for the fresh
account number 2002 on the sample system. -/
theorem createNewAccount_balance_as_entered_witness :
    (∀ r ∈ sampleSystem.store, r.account_number ≠ freshInput.accountNumber) ∧
      (createNewAccount sampleSystem freshInput).store =
        sampleSystem.store ++ [freshInput.newAccount.toRow] ∧
      freshInput.newAccount.balance = Double.ofInt 250 ∧
      Double.le Double.zero freshInput.newAccount.balance = true := by
  have hfresh : ∀ r ∈ sampleSystem.store, r.account_number ≠ freshInput.accountNumber := by
    intro r hmem
    simp only [sampleSystem, sampleStore, List.mem_singleton] at hmem
    subst hmem
    simp [BankAccount.toRow, sampleAccount, freshInput]
  have t := createNewAccount_balance_as_entered sampleSystem freshInput
  refine ⟨hfresh, t.2.2.1 hfresh, t.2.1, ?_⟩
  rw [t.2.2.2.2.1]
  decide

end Banking
